import Mathlib

/-!
# Verification of the OTP authentication core

A shallow embedding of the OTP service, the related serializer and view
logic, the phone-number normalizer, and the continuation-token signer of
the plants-application API, together with proofs of the specification's
testable properties.

The Django TTL cache used by `core/services.py` is embedded as a partial
map from keys to entries carrying a remaining TTL (in seconds).  Time is
discrete: `tick` advances the clock by one second, expiring entries whose
TTL runs out.  The cryptographically random code generator is modelled by
passing the generated code as an explicit argument.
-/

namespace Plants

/-- An OTP challenge as stored by `OTPService`: the dict
`\x7b"code": ..., "purpose": ..., "attempts": ...\x7d` of `core/services.py`. -/
structure OTPData where
  code : String
  purpose : String
  attempts : Nat
deriving DecidableEq, Repr

/-- A cache entry: stored value plus remaining TTL in seconds. -/
structure CacheEntry where
  data : OTPData
  ttl : Nat
deriving DecidableEq, Repr

/-- The Django cache, embedded as a partial map from keys to entries. -/
def Cache : Type := String → Option CacheEntry

/-- The empty cache. -/
def emptyCache : Cache := fun _ => none

/-- Django `cache.get(key)`: a hit only while the remaining TTL is positive
(an entry stored with `timeout=0` expires immediately). -/
def cacheGet (c : Cache) (k : String) : Option OTPData :=
  match c k with
  | some e => if 0 < e.ttl then some e.data else none
  | none => none

/-- Django `cache.ttl(key)`: remaining TTL of a key, `0` when absent. -/
def cacheTTL (c : Cache) (k : String) : Nat :=
  match c k with
  | some e => e.ttl
  | none => 0

/-- Django `cache.set(key, value, timeout)`: unconditional overwrite. -/
def cacheSet (c : Cache) (k : String) (d : OTPData) (ttl : Nat) : Cache :=
  fun q => if q = k then some ⟨d, ttl⟩ else c q

/-- Django `cache.delete(key)`. -/
def cacheDelete (c : Cache) (k : String) : Cache :=
  fun q => if q = k then none else c q

/-- One second of wall-clock time: every entry's TTL decreases by one and
entries whose TTL runs out disappear. -/
def tick (c : Cache) : Cache :=
  fun q =>
    match c q with
    | some e => if e.ttl ≤ 1 then none else some ⟨e.data, e.ttl - 1⟩
    | none => none

/-- Constant `OTP_TTL_SECONDS` of `core/services.py`. -/
def OTP_TTL_SECONDS : Nat := 120

/-- Constant `MAX_OTP_ATTEMPTS` of `core/services.py`. -/
def MAX_OTP_ATTEMPTS : Nat := 5

/-- The cache key `f"otp:\x7btarget\x7d"` of `core/services.py`. -/
def otpKey (target : String) : String := "otp:" ++ target

/-- Function `OTPService.send_otp` of `core/services.py`.  The code produced by
`OTPService._generate_code` is passed in as `gen` (the generator draws
each digit from a cryptographically secure source; its output is opaque
to the rest of the service).  The `channel` argument and the delivery
side effect do not touch the cache and are omitted. -/
def send_otp (c : Cache) (target gen purpose : String) : Bool × Cache :=
  if (cacheGet c (otpKey target)).isSome then
    (false, c)
  else
    (true, cacheSet c (otpKey target) ⟨gen, purpose, 0⟩ OTP_TTL_SECONDS)

/-- Function `OTPService.verify_otp` of `core/services.py`, step for step:
miss → purpose mismatch → attempt exhaustion (delete) → code match
(delete, return data) → mismatch (increment attempts, re-persist with the
remaining TTL `cache.ttl(key)`). -/
def verify_otp (c : Cache) (target code purpose : String) :
    Option OTPData × Cache :=
  let key := otpKey target
  match cacheGet c key with
  | none => (none, c)
  | some d =>
    if d.purpose ≠ purpose then
      (none, c)
    else if MAX_OTP_ATTEMPTS ≤ d.attempts then
      (none, cacheDelete c key)
    else if d.code = code then
      (some d, cacheDelete c key)
    else
      (none, cacheSet c key ⟨d.code, d.purpose, d.attempts + 1⟩ (cacheTTL c key))

/-! ## Basic cache lemmas -/

theorem cacheGet_set_self (c : Cache) (k : String) (d : OTPData) (ttl : Nat) :
    cacheGet (cacheSet c k d ttl) k = if 0 < ttl then some d else none := by
  simp [cacheGet, cacheSet]

theorem cacheTTL_set_self (c : Cache) (k : String) (d : OTPData) (ttl : Nat) :
    cacheTTL (cacheSet c k d ttl) k = ttl := by
  simp [cacheTTL, cacheSet]

theorem cacheGet_delete_self (c : Cache) (k : String) :
    cacheGet (cacheDelete c k) k = none := by
  simp [cacheGet, cacheDelete]

theorem cacheGet_tick (c : Cache) (k : String) :
    cacheGet (tick c) k =
      match c k with
      | some e => if 1 < e.ttl then some e.data else none
      | none => none := by
  unfold cacheGet tick
  cases h : c k with
  | none => simp
  | some e =>
    by_cases hle : e.ttl ≤ 1
    · have h1 : ¬ 1 < e.ttl := by omega
      simp [hle, h1]
    · have h1 : 1 < e.ttl := by omega
      have h0 : 0 < e.ttl - 1 := by omega
      simp [hle, h1, h0]

theorem cacheGet_none_tick {c : Cache} {k : String}
    (h : cacheGet c k = none) : cacheGet (tick c) k = none := by
  rw [cacheGet_tick]
  unfold cacheGet at h
  cases hc : c k with
  | none => simp
  | some e =>
    rw [hc] at h
    by_cases h0 : 0 < e.ttl
    · simp [h0] at h
    · have : ¬ 1 < e.ttl := by omega
      simp [this]

theorem cacheTTL_tick_le (c : Cache) (k : String) :
    cacheTTL (tick c) k ≤ cacheTTL c k := by
  unfold cacheTTL tick
  cases c k with
  | none => simp
  | some e =>
    by_cases hle : e.ttl ≤ 1
    · simp only [hle, if_true, ite_true]
      exact Nat.zero_le _
    · simp only [hle, if_false, ite_false]
      exact Nat.sub_le _ _

/-- A live challenge means the underlying entry exists with positive TTL. -/
theorem cacheGet_some_iff {c : Cache} {k : String} {d : OTPData} :
    cacheGet c k = some d ↔ ∃ e, c k = some e ∧ e.data = d ∧ 0 < e.ttl := by
  unfold cacheGet
  cases h : c k with
  | none => simp
  | some e =>
    by_cases h0 : 0 < e.ttl
    · simp [h0, eq_comm]
    · simp [h0]

theorem cacheGet_some_ttl_pos {c : Cache} {k : String} {d : OTPData}
    (h : cacheGet c k = some d) : 0 < cacheTTL c k := by
  rcases cacheGet_some_iff.mp h with ⟨e, he, _, h0⟩
  unfold cacheTTL
  rw [he]
  exact h0

/-! ## C1: at-most-once consumption -/

/-- A cache holding exactly one freshly issued challenge, used to
instantiate the hypotheses of the theorems below. -/
def sampleCache : Cache :=
  cacheSet emptyCache (otpKey "u@x.com") ⟨"482913", "login", 0⟩ OTP_TTL_SECONDS

/-- Claim C1: if `verify_otp` succeeds, the challenge has been deleted from
the store in the returned state, and a second `verify_otp` with the same
target, code and purpose finds no challenge and returns Invalid (leaving
the store unchanged). -/
theorem verify_otp_at_most_once (c : Cache) (t code p : String)
    (d : OTPData)
    (h : (verify_otp c t code p).1 = some d) :
    cacheGet (verify_otp c t code p).2 (otpKey t) = none ∧
    verify_otp (verify_otp c t code p).2 t code p =
      (none, (verify_otp c t code p).2) := by
  unfold verify_otp at h ⊢
  cases hget : cacheGet c (otpKey t) with
  | none => simp [hget] at h
  | some d0 =>
    simp only [hget] at h ⊢
    by_cases hp : d0.purpose ≠ p
    · simp [hp] at h
    · by_cases hexh : MAX_OTP_ATTEMPTS ≤ d0.attempts
      · simp [hp, hexh] at h
      · by_cases hcode : d0.code = code
        · have hnone : cacheGet (cacheDelete c (otpKey t)) (otpKey t) = none :=
            cacheGet_delete_self c (otpKey t)
          simp [hp, hexh, hcode, hnone]
        · simp [hp, hexh, hcode] at h

/-- Concrete instantiation of C1: issue a challenge, verify it
successfully, and observe that the second verification fails. -/
theorem verify_otp_at_most_once_witness :
    cacheGet (verify_otp sampleCache "u@x.com" "482913" "login").2
      (otpKey "u@x.com") = none ∧
    verify_otp (verify_otp sampleCache "u@x.com" "482913" "login").2
      "u@x.com" "482913" "login" =
      (none, (verify_otp sampleCache "u@x.com" "482913" "login").2) :=
  verify_otp_at_most_once sampleCache "u@x.com" "482913" "login"
    ⟨"482913", "login", 0⟩ (by decide)

/-! ## C3: single active challenge (resend cooldown) -/

/-- Claim C3: while a live challenge exists for a target, `send_otp` for
that target returns `false` and the returned store is the input store
itself: code, purpose, attempts and TTL of the live entry are untouched,
whatever the requested purpose and whatever code the generator would have
produced. -/
theorem send_otp_cooldown (c : Cache) (t gen q : String) (d : OTPData)
    (h : cacheGet c (otpKey t) = some d) :
    send_otp c t gen q = (false, c) := by
  unfold send_otp
  simp [h]

/-- Concrete instantiation of C3: a second issuance for the same target
is rejected and the store is untouched. -/
theorem send_otp_cooldown_witness :
    send_otp sampleCache "u@x.com" "999999" "register" = (false, sampleCache) :=
  send_otp_cooldown sampleCache "u@x.com" "999999" "register"
    ⟨"482913", "login", 0⟩ (by decide)

/-! ## C4: purpose isolation without attempt mutation -/

/-- Claim C4: a verification whose requested purpose differs from the
stored purpose returns Invalid and hands back the input store itself:
no deletion and no attempts increment, even when the submitted code
equals the stored code. -/
theorem verify_otp_purpose_isolation (c : Cache) (t code q : String)
    (d : OTPData)
    (h : cacheGet c (otpKey t) = some d) (hq : d.purpose ≠ q) :
    verify_otp c t code q = (none, c) := by
  unfold verify_otp
  simp [h, hq]

/-- Concrete instantiation of C4: verifying a `login` challenge under
purpose `register` with the correct stored code still fails, and the
store keeps the challenge with `attempts = 0`. -/
theorem verify_otp_purpose_isolation_witness :
    verify_otp sampleCache "u@x.com" "482913" "register" =
      (none, sampleCache) ∧
    cacheGet sampleCache (otpKey "u@x.com") = some ⟨"482913", "login", 0⟩ :=
  ⟨verify_otp_purpose_isolation sampleCache "u@x.com" "482913" "register"
      ⟨"482913", "login", 0⟩ (by decide) (by decide),
   by decide⟩

/-! ## C2: exhaustion purges -/

/-- One failed guess against a live, purpose-matching, unexhausted
challenge: Invalid is returned, attempts grows by one, the remaining TTL
is re-used unchanged. -/
theorem verify_otp_wrong_code (c : Cache) (t w p : String) (d : OTPData)
    (h : cacheGet c (otpKey t) = some d) (hp : d.purpose = p)
    (hlt : d.attempts < MAX_OTP_ATTEMPTS) (hw : d.code ≠ w) :
    (verify_otp c t w p).1 = none ∧
    cacheGet (verify_otp c t w p).2 (otpKey t) =
      some ⟨d.code, d.purpose, d.attempts + 1⟩ ∧
    cacheTTL (verify_otp c t w p).2 (otpKey t) = cacheTTL c (otpKey t) := by
  have hnp : ¬ d.purpose ≠ p := by simp [hp]
  have hne : ¬ MAX_OTP_ATTEMPTS ≤ d.attempts := by omega
  have httl : 0 < cacheTTL c (otpKey t) := cacheGet_some_ttl_pos h
  unfold verify_otp
  simp only [h, hnp, hne, hw, if_neg, if_false, ite_false, ite_true]
  refine ⟨by trivial, ?_, ?_⟩
  · rw [cacheGet_set_self]
    simp [httl]
  · rw [cacheTTL_set_self]

/-- Claim C2, first conjunct: once the attempts counter of a live,
purpose-matching challenge has reached `MAX_OTP_ATTEMPTS`, the next
`verify_otp` returns Invalid and deletes the challenge, for every
submitted code (correct or not).  Second conjunct: concretely, starting
from a fresh challenge, five wrong-code calls followed by a sixth call
with the stored code yield Invalid and an empty store for that target. -/
theorem verify_otp_exhaustion_purges (c : Cache) (t p : String) :
    (∀ (d : OTPData) (code : String),
      cacheGet c (otpKey t) = some d → d.purpose = p →
      MAX_OTP_ATTEMPTS ≤ d.attempts →
      (verify_otp c t code p).1 = none ∧
      cacheGet (verify_otp c t code p).2 (otpKey t) = none) ∧
    (∀ (gen w : String), cacheGet c (otpKey t) = none → gen ≠ w →
      (fun c5 => (verify_otp c5 t gen p).1 = none ∧
          cacheGet (verify_otp c5 t gen p).2 (otpKey t) = none)
        (Nat.iterate (fun s => (verify_otp s t w p).2) 5
          (send_otp c t gen p).2)) := by
  constructor
  · intro d code hget hp hexh
    have hnp : ¬ d.purpose ≠ p := by simp [hp]
    unfold verify_otp
    simp [hget, hnp, hexh, cacheGet_delete_self]
  · intro gen w hmiss hne
    have hsend : (send_otp c t gen p).2 =
        cacheSet c (otpKey t) ⟨gen, p, 0⟩ OTP_TTL_SECONDS := by
      unfold send_otp
      simp [hmiss]
    have hwrong : ∀ (c0 : Cache) (a : Nat),
        cacheGet c0 (otpKey t) = some ⟨gen, p, a⟩ → a < MAX_OTP_ATTEMPTS →
        cacheGet (verify_otp c0 t w p).2 (otpKey t) = some ⟨gen, p, a + 1⟩ := by
      intro c0 a hg ha
      exact (verify_otp_wrong_code c0 t w p ⟨gen, p, a⟩ hg rfl ha hne).2.1
    have h0 : cacheGet (send_otp c t gen p).2 (otpKey t) = some ⟨gen, p, 0⟩ := by
      rw [hsend, cacheGet_set_self]
      simp [OTP_TTL_SECONDS]
    set step := fun s => (verify_otp s t w p).2 with hstep
    have h1 : cacheGet (step (send_otp c t gen p).2) (otpKey t) =
        some ⟨gen, p, 1⟩ := hwrong _ 0 h0 (by norm_num [MAX_OTP_ATTEMPTS])
    have h2 : cacheGet (step (step (send_otp c t gen p).2)) (otpKey t) =
        some ⟨gen, p, 2⟩ := hwrong _ 1 h1 (by norm_num [MAX_OTP_ATTEMPTS])
    have h3 : cacheGet (step (step (step (send_otp c t gen p).2))) (otpKey t) =
        some ⟨gen, p, 3⟩ := hwrong _ 2 h2 (by norm_num [MAX_OTP_ATTEMPTS])
    have h4 : cacheGet (step (step (step (step (send_otp c t gen p).2))))
        (otpKey t) = some ⟨gen, p, 4⟩ :=
      hwrong _ 3 h3 (by norm_num [MAX_OTP_ATTEMPTS])
    have h5 : cacheGet (step (step (step (step (step
        (send_otp c t gen p).2))))) (otpKey t) = some ⟨gen, p, 5⟩ :=
      hwrong _ 4 h4 (by norm_num [MAX_OTP_ATTEMPTS])
    have hiter : Nat.iterate step 5 (send_otp c t gen p).2 =
        step (step (step (step (step (send_otp c t gen p).2)))) := by
      simp [Function.iterate_succ_apply, Function.iterate_zero_apply]
    simp only [hiter]
    have hnp : (p : String) ≠ p → False := fun hh => hh rfl
    unfold verify_otp
    simp [h5, MAX_OTP_ATTEMPTS, cacheGet_delete_self]

/-- Concrete instantiation of C2: an exhausted challenge (attempts = 5)
rejects even the correct code and is purged; and the fresh 5-wrong-then-
right scenario ends Invalid with an empty store. -/
theorem verify_otp_exhaustion_purges_witness :
    ((verify_otp (cacheSet emptyCache (otpKey "u@x.com")
        ⟨"482913", "login", 5⟩ 60) "u@x.com" "482913" "login").1 = none ∧
      cacheGet (verify_otp (cacheSet emptyCache (otpKey "u@x.com")
        ⟨"482913", "login", 5⟩ 60) "u@x.com" "482913" "login").2
        (otpKey "u@x.com") = none) ∧
    ((fun c5 => (verify_otp c5 "u@x.com" "482913" "login").1 = none ∧
        cacheGet (verify_otp c5 "u@x.com" "482913" "login").2
          (otpKey "u@x.com") = none)
      (Nat.iterate
        (fun s => (verify_otp s "u@x.com" "000000" "login").2) 5
        (send_otp emptyCache "u@x.com" "482913" "login").2)) :=
  ⟨(verify_otp_exhaustion_purges (cacheSet emptyCache (otpKey "u@x.com")
        ⟨"482913", "login", 5⟩ 60) "u@x.com" "login").1
      ⟨"482913", "login", 5⟩ "482913" (by decide) rfl (by decide),
   (verify_otp_exhaustion_purges emptyCache "u@x.com" "login").2
      "482913" "000000" (by decide) (by decide)⟩

/-! ## C5: attempt monotonicity without TTL reset -/

/-- Events observable by a challenge between issuance and resolution:
one second of wall-clock time, or one verification call with a wrong
code. -/
inductive OtpEv where
  | tickE : OtpEv
  | verifyE : OtpEv
deriving DecidableEq, Repr

/-- Run a sequence of events against the store: `tickE` advances the
clock by a second, `verifyE` performs `verify_otp t w p`. -/
def runEvents (t w p : String) : List OtpEv → Cache → Cache
  | [], c => c
  | OtpEv.tickE :: evs, c => runEvents t w p evs (tick c)
  | OtpEv.verifyE :: evs, c => runEvents t w p evs (verify_otp c t w p).2

theorem runEvents_none (t w p : String) (evs : List OtpEv) (c : Cache)
    (h : cacheGet c (otpKey t) = none) :
    cacheGet (runEvents t w p evs c) (otpKey t) = none := by
  induction evs generalizing c with
  | nil => exact h
  | cons ev evs ih =>
    cases ev with
    | tickE => exact ih (tick c) (cacheGet_none_tick h)
    | verifyE =>
      have : (verify_otp c t w p).2 = c := by
        unfold verify_otp
        simp [h]
      rw [runEvents]
      rw [this]
      exact ih c h

/-- Invariant for C5: after any interleaving of clock ticks and
wrong-code verifications, the challenge is either gone, or alive with
its attempts counter grown by exactly the number of verification calls
and its TTL no larger than before. -/
theorem runEvents_inv (t w p : String) (evs : List OtpEv) (c : Cache)
    (d : OTPData) (hget : cacheGet c (otpKey t) = some d)
    (hp : d.purpose = p) (hw : d.code ≠ w)
    (hbound : d.attempts + evs.count OtpEv.verifyE ≤ MAX_OTP_ATTEMPTS) :
    cacheGet (runEvents t w p evs c) (otpKey t) = none ∨
      (cacheGet (runEvents t w p evs c) (otpKey t) =
          some ⟨d.code, d.purpose, d.attempts + evs.count OtpEv.verifyE⟩ ∧
        cacheTTL (runEvents t w p evs c) (otpKey t) ≤ cacheTTL c (otpKey t)) := by
  induction evs generalizing c d with
  | nil =>
    refine Or.inr ⟨?_, le_refl _⟩
    simp only [runEvents, List.count_nil, Nat.add_zero]
    exact hget
  | cons ev evs ih =>
    cases ev with
    | tickE =>
      rw [runEvents]
      have hcount : (OtpEv.tickE :: evs).count OtpEv.verifyE =
          evs.count OtpEv.verifyE := by
        simp [List.count_cons]
      rw [hcount] at hbound ⊢
      cases htick : cacheGet (tick c) (otpKey t) with
      | none =>
        left
        exact runEvents_none t w p evs (tick c) htick
      | some d1 =>
        have hd1 : d1 = d := by
          rw [cacheGet_tick] at htick
          rcases cacheGet_some_iff.mp hget with ⟨e, he, hed, h0⟩
          rw [he] at htick
          by_cases h1 : 1 < e.ttl
          · simp [h1] at htick
            rw [← htick, hed]
          · simp [h1] at htick
        subst hd1
        rcases ih (tick c) d1 htick hp hw hbound with hnone | ⟨hsome, httl⟩
        · left; exact hnone
        · right
          exact ⟨hsome, le_trans httl (cacheTTL_tick_le c (otpKey t))⟩
    | verifyE =>
      rw [runEvents]
      have hcount : (OtpEv.verifyE :: evs).count OtpEv.verifyE =
          evs.count OtpEv.verifyE + 1 := by
        simp [List.count_cons]
      have hlt : d.attempts < MAX_OTP_ATTEMPTS := by
        rw [hcount] at hbound
        omega
      obtain ⟨-, hget', httl'⟩ := verify_otp_wrong_code c t w p d hget hp hlt hw
      have hbound' : d.attempts + 1 + evs.count OtpEv.verifyE ≤
          MAX_OTP_ATTEMPTS := by
        rw [hcount] at hbound
        omega
      rcases ih (verify_otp c t w p).2 ⟨d.code, d.purpose, d.attempts + 1⟩
          hget' hp hw hbound' with hnone | ⟨hsome, httl⟩
      · left; exact hnone
      · right
        constructor
        · rw [hsome, hcount]
          simp only [Option.some.injEq, OTPData.mk.injEq, true_and]
          show d.attempts + 1 + evs.count OtpEv.verifyE =
            d.attempts + (evs.count OtpEv.verifyE + 1)
          omega
        · rw [httl'] at httl
          exact httl

/-- Claim C5, first conjunct: a wrong-code verification of a live,
purpose-matching, unexhausted challenge returns Invalid, re-persists the
challenge with its attempts counter incremented by exactly one, and with
its remaining TTL unchanged (not the full `OTP_TTL_SECONDS`).  Second
conjunct: after any sequence of N wrong-code verifications interleaved
with clock ticks (N within the attempt budget), if the challenge is
still in the store then its attempts counter equals the initial counter
plus N and its remaining TTL is at most the TTL before the first call —
expiry is never extended by a failed attempt. -/
theorem verify_otp_attempt_monotonicity (c : Cache) (t w p : String)
    (d : OTPData) (hget : cacheGet c (otpKey t) = some d)
    (hp : d.purpose = p) (hw : d.code ≠ w) :
    (d.attempts < MAX_OTP_ATTEMPTS →
      (verify_otp c t w p).1 = none ∧
      cacheGet (verify_otp c t w p).2 (otpKey t) =
        some ⟨d.code, d.purpose, d.attempts + 1⟩ ∧
      cacheTTL (verify_otp c t w p).2 (otpKey t) = cacheTTL c (otpKey t)) ∧
    (∀ evs : List OtpEv,
      d.attempts + evs.count OtpEv.verifyE ≤ MAX_OTP_ATTEMPTS →
      ∀ d', cacheGet (runEvents t w p evs c) (otpKey t) = some d' →
        d'.attempts = d.attempts + evs.count OtpEv.verifyE ∧
        cacheTTL (runEvents t w p evs c) (otpKey t) ≤
          cacheTTL c (otpKey t)) := by
  constructor
  · intro hlt
    exact verify_otp_wrong_code c t w p d hget hp hlt hw
  · intro evs hbound d' hd'
    rcases runEvents_inv t w p evs c d hget hp hw hbound with hnone | ⟨hsome, httl⟩
    · rw [hnone] at hd'
      cases hd'
    · rw [hsome] at hd'
      cases hd'
      exact ⟨rfl, httl⟩

/-- Concrete instantiation of C5: one wrong guess increments attempts to
1 and keeps the TTL at 120; a tick-verify-tick-verify run leaves the
challenge with attempts 2 and TTL 118 ≤ 120. -/
theorem verify_otp_attempt_monotonicity_witness :
    ((verify_otp sampleCache "u@x.com" "000000" "login").1 = none ∧
      cacheGet (verify_otp sampleCache "u@x.com" "000000" "login").2
        (otpKey "u@x.com") = some ⟨"482913", "login", 1⟩ ∧
      cacheTTL (verify_otp sampleCache "u@x.com" "000000" "login").2
        (otpKey "u@x.com") = cacheTTL sampleCache (otpKey "u@x.com")) ∧
    ((⟨"482913", "login", 2⟩ : OTPData).attempts = 0 + 2 ∧
      cacheTTL (runEvents "u@x.com" "000000" "login"
          [OtpEv.tickE, OtpEv.verifyE, OtpEv.tickE, OtpEv.verifyE] sampleCache)
        (otpKey "u@x.com") ≤ cacheTTL sampleCache (otpKey "u@x.com")) :=
  ⟨(verify_otp_attempt_monotonicity sampleCache "u@x.com" "000000" "login"
      ⟨"482913", "login", 0⟩ (by decide) rfl (by decide)).1 (by decide),
   (verify_otp_attempt_monotonicity sampleCache "u@x.com" "000000" "login"
      ⟨"482913", "login", 0⟩ (by decide) rfl (by decide)).2
    [OtpEv.tickE, OtpEv.verifyE, OtpEv.tickE, OtpEv.verifyE] (by decide)
    ⟨"482913", "login", 2⟩ (by decide)⟩

/-! ## Phone normalization (`core/utils.py`) -/

/-- Step `if digits.startswith("0"): digits = digits[1:]` of
`normalize_iran_phone`. -/
def stripLeadingZero : List Char → List Char
  | '0' :: rest => rest
  | ds => ds

/-- Step `if digits.startswith("98"): digits = digits[2:]` of
`normalize_iran_phone`. -/
def stripLeadingNinetyEight : List Char → List Char
  | '9' :: '8' :: rest => rest
  | ds => ds

/-- The final `return` of `normalize_iran_phone`: both the
`len(digits) == 10 and digits.startswith("9")` branch and the fallback
produce `f"+98\x7bdigits\x7d"`. -/
def normTail (digits : List Char) : String :=
  if digits.length = 10 ∧ digits.head? = some '9' then
    String.mk ('+' :: '9' :: '8' :: digits)
  else
    String.mk ('+' :: '9' :: '8' :: digits)

/-- Function `normalize_iran_phone` of `core/utils.py`.  The guard
`if not value: return value` fires exactly on the empty string;
`re.sub(r"\D", "", value)` is modelled as filtering digit characters
(ASCII digits; the claims involve no other digit scripts). -/
def normalize_iran_phone (value : String) : String :=
  if value = "" then value
  else
    normTail (stripLeadingNinetyEight
      (stripLeadingZero (value.toList.filter Char.isDigit)))

theorem normTail_eq (ds : List Char) :
    normTail ds = String.mk ('+' :: '9' :: '8' :: ds) := by
  unfold normTail
  rw [ite_self]

theorem stripLeadingZero_digits {l : List Char}
    (h : ∀ c ∈ l, c.isDigit = true) :
    ∀ c ∈ stripLeadingZero l, c.isDigit = true := by
  unfold stripLeadingZero
  split
  · intro c hc
    exact h c (List.mem_cons_of_mem _ hc)
  · exact h

theorem stripLeadingNinetyEight_digits {l : List Char}
    (h : ∀ c ∈ l, c.isDigit = true) :
    ∀ c ∈ stripLeadingNinetyEight l, c.isDigit = true := by
  unfold stripLeadingNinetyEight
  split
  · intro c hc
    exact h c (List.mem_cons_of_mem _ (List.mem_cons_of_mem _ hc))
  · exact h

/-- Idempotence of the normalizer: on a non-empty input the output is
`"+98"` followed only by digits, whose re-normalization strips exactly
the prepended `98` again. -/
theorem normalize_iran_phone_idem_aux (s : String) :
    normalize_iran_phone (normalize_iran_phone s) = normalize_iran_phone s := by
  by_cases hs : s = ""
  · subst hs
    rfl
  · have hfd : ∀ c ∈ List.filter Char.isDigit s.toList, c.isDigit = true := by
      intro c hc
      exact (List.mem_filter.mp hc).2
    have hds : ∀ c ∈ stripLeadingNinetyEight
        (stripLeadingZero (List.filter Char.isDigit s.toList)), c.isDigit = true :=
      stripLeadingNinetyEight_digits (stripLeadingZero_digits hfd)
    set ds := stripLeadingNinetyEight
      (stripLeadingZero (List.filter Char.isDigit s.toList)) with hds_def
    have h1 : normalize_iran_phone s = String.mk ('+' :: '9' :: '8' :: ds) := by
      unfold normalize_iran_phone
      rw [if_neg hs, ← hds_def, normTail_eq]
    rw [h1]
    have hne : String.mk ('+' :: '9' :: '8' :: ds) ≠ "" := by
      intro h
      have hdata : '+' :: '9' :: '8' :: ds = ([] : List Char) :=
        congrArg String.data h
      exact List.cons_ne_nil _ _ hdata
    have hall : List.filter Char.isDigit ds = ds := List.filter_eq_self.mpr hds
    have hfilter : List.filter Char.isDigit ('+' :: '9' :: '8' :: ds) =
        '9' :: '8' :: ds := by
      rw [show List.filter Char.isDigit ('+' :: '9' :: '8' :: ds) =
        '9' :: '8' :: List.filter Char.isDigit ds from rfl, hall]
    unfold normalize_iran_phone
    rw [if_neg hne]
    rw [show (String.mk ('+' :: '9' :: '8' :: ds)).toList =
      '+' :: '9' :: '8' :: ds from rfl]
    rw [hfilter]
    rw [show stripLeadingZero ('9' :: '8' :: ds) = '9' :: '8' :: ds from rfl]
    rw [show stripLeadingNinetyEight ('9' :: '8' :: ds) = ds from rfl]
    rw [normTail_eq]

/-- The phone-number branch of `CustomUser.save` (`core/models.py`):
a truthy `phone_number` is re-normalized before persisting. -/
def customUser_save_phone (phone : Option String) : Option String :=
  match phone with
  | some ph => if ph = "" then some ph else some (normalize_iran_phone ph)
  | none => none

/-! ## C10: normalization idempotence -/

/-- Claim C10: `normalize_iran_phone` is idempotent on every input string;
consequently `CustomUser.save` leaves an already-normalized phone number
(such as a serializer-normalized OTP target) unchanged, and the save
step itself is idempotent — the OTP store key and the stored user
identifier always agree. -/
theorem normalize_iran_phone_idempotent :
    (∀ s : String,
      normalize_iran_phone (normalize_iran_phone s) = normalize_iran_phone s) ∧
    (∀ s : String,
      customUser_save_phone (some (normalize_iran_phone s)) =
        some (normalize_iran_phone s)) ∧
    (∀ k : Option String,
      customUser_save_phone (customUser_save_phone k) =
        customUser_save_phone k) := by
  have hstep : ∀ ph : String, ph ≠ "" →
      customUser_save_phone (some ph) = some (normalize_iran_phone ph) := by
    intro ph h
    show (if ph = "" then some ph else some (normalize_iran_phone ph)) =
      some (normalize_iran_phone ph)
    rw [if_neg h]
  have hsave : ∀ s : String,
      customUser_save_phone (some (normalize_iran_phone s)) =
        some (normalize_iran_phone s) := by
    intro s
    by_cases h : normalize_iran_phone s = ""
    · show (if normalize_iran_phone s = "" then some (normalize_iran_phone s)
          else some (normalize_iran_phone (normalize_iran_phone s))) =
        some (normalize_iran_phone s)
      rw [if_pos h]
    · rw [hstep _ h, normalize_iran_phone_idem_aux]
  refine ⟨normalize_iran_phone_idem_aux, hsave, ?_⟩
  intro k
  match k with
  | none => rfl
  | some ph =>
    by_cases h : ph = ""
    · subst h
      rfl
    · rw [hstep _ h]
      exact hsave ph

/-! ## Python string primitives used by the serializers and models -/

/-- Python's `"@" in value`, the email-versus-phone dispatch used across
`core/serializers.py` and `core/views.py`. -/
def hasAtSign (s : String) : Bool := s.data.any (fun c => c == '@')

/-- Python's `str.lower()` (ASCII case folding suffices for the claims). -/
def lowercase (s : String) : String := String.mk (s.data.map Char.toLower)

/-- Python's `str.strip()`: drop leading and trailing whitespace. -/
def stripWS (s : String) : String :=
  String.mk
    (((s.data.dropWhile Char.isWhitespace).reverse.dropWhile
        Char.isWhitespace).reverse)

/-! ## The user-identity store (`core/models.py`, `core/managers.py`) -/

/-- The fields of `CustomUser` the authentication core reads or writes.
`none` models both SQL `NULL` and the falsy empty value. -/
structure UserRec where
  id : Nat
  email : Option String
  phone_number : Option String
  is_email_verified : Bool
  is_phone_verified : Bool
deriving DecidableEq, Repr

/-- Check `User.objects.filter(email=value).exists() or
User.objects.filter(phone_number=value).exists()` of
`OTPRequestSerializer.validate_target`. -/
def user_exists_for (users : List UserRec) (value : String) : Bool :=
  users.any (fun u => u.email == some value) ||
    users.any (fun u => u.phone_number == some value)

/-- Modelled from the spec: `CustomManager.find_by_identifier`
(lookup-by-identifier of the user-identity store) is called by the
login/register flow and exercised by `core/tests/test_managers.py`, but
its definition is not under `src/`; per the spec it looks a user up by
the normalized identifier — email when the identifier contains `@`,
normalized phone number otherwise. -/
def find_by_identifier (users : List UserRec) (target : String) :
    Option UserRec :=
  if hasAtSign target then
    users.find? fun u => u.email == some target
  else
    users.find? fun u => u.phone_number == some (normalize_iran_phone target)

/-- The user record built when the register flow must create an account
for a fresh identifier: `create_user` (`core/managers.py`, under `src/`)
normalizes the phone number, and `CustomUser.save` (`core/models.py`,
under `src/`) normalizes the email (strip + lower) and the phone number
once more; the identifier used is marked verified (per
`core/tests/test_managers.py`). -/
def createUserByIdentifier (target : String) (newId : Nat) : UserRec :=
  if hasAtSign target then
    ⟨newId, some (lowercase (stripWS target)), none, true, false⟩
  else
    ⟨newId, none,
      some (normalize_iran_phone (normalize_iran_phone target)), false, true⟩

/-- Modelled from the spec: `CustomManager.get_or_create_by_identifier`
(create-or-get-by-identifier of the user-identity store) is called by
the register flow (`core/views.py` line 377) and exercised by
`core/tests/test_managers.py`, but its definition is not under `src/`;
per the spec it is get-or-create: an existing user is returned with
`created = false`, otherwise a minimal user is created and returned with
`created = true`. -/
def get_or_create_by_identifier (users : List UserRec) (target : String)
    (newId : Nat) : (UserRec × Bool) × List UserRec :=
  match find_by_identifier users target with
  | some u => ((u, false), users)
  | none =>
    let u := createUserByIdentifier target newId
    ((u, true), users ++ [u])

theorem find?_append_singleton {α : Type} (p : α → Bool) (l : List α) (u : α)
    (h : l.find? p = none) (hu : p u = true) :
    (l ++ [u]).find? p = some u := by
  induction l with
  | nil =>
    simp [List.find?, hu]
  | cons a l ih =>
    by_cases hp : p a = true
    · rw [List.find?_cons_of_pos _ hp] at h
      cases h
    · have hpa : ¬ p a = true := hp
      rw [List.find?_cons_of_neg _ (by simpa using hpa)] at h
      rw [List.cons_append, List.find?_cons_of_neg _ (by simpa using hpa)]
      exact ih h

/-! ## C9: register idempotence -/

/-- Claim C9: the register flow resolves users through get-or-create: for
a serializer-normalized target (trimmed and lowercased, as every target
reaching the flow is), running `get_or_create_by_identifier` a second
time on the store produced by the first run returns the very same user,
reports `created = false`, and leaves the user list unchanged — two
completions of the register flow never create two users. -/
theorem register_get_or_create_idempotent (users : List UserRec)
    (target : String) (id1 id2 : Nat)
    (hnorm : lowercase (stripWS target) = target) :
    (get_or_create_by_identifier
        (get_or_create_by_identifier users target id1).2 target id2).1.1 =
      (get_or_create_by_identifier users target id1).1.1 ∧
    (get_or_create_by_identifier
        (get_or_create_by_identifier users target id1).2 target id2).1.2 =
      false ∧
    (get_or_create_by_identifier
        (get_or_create_by_identifier users target id1).2 target id2).2 =
      (get_or_create_by_identifier users target id1).2 := by
  cases hf : find_by_identifier users target with
  | some u =>
    have h1 : get_or_create_by_identifier users target id1 = ((u, false), users) := by
      unfold get_or_create_by_identifier
      rw [hf]
    have h2 : get_or_create_by_identifier users target id2 = ((u, false), users) := by
      unfold get_or_create_by_identifier
      rw [hf]
    rw [h1]
    simp only
    rw [h2]
    exact ⟨rfl, rfl, rfl⟩
  | none =>
    have h1 : get_or_create_by_identifier users target id1 =
        ((createUserByIdentifier target id1, true),
          users ++ [createUserByIdentifier target id1]) := by
      unfold get_or_create_by_identifier
      rw [hf]
    have hfind : find_by_identifier
        (users ++ [createUserByIdentifier target id1]) target =
        some (createUserByIdentifier target id1) := by
      unfold find_by_identifier at hf ⊢
      by_cases hat : hasAtSign target = true
      · rw [if_pos hat] at hf ⊢
        refine find?_append_singleton _ _ _ hf ?_
        unfold createUserByIdentifier
        rw [if_pos hat]
        simp [hnorm]
      · rw [if_neg hat] at hf ⊢
        refine find?_append_singleton _ _ _ hf ?_
        unfold createUserByIdentifier
        rw [if_neg hat]
        simp [normalize_iran_phone_idem_aux]
    have h2 : get_or_create_by_identifier
        (users ++ [createUserByIdentifier target id1]) target id2 =
        ((createUserByIdentifier target id1, false),
          users ++ [createUserByIdentifier target id1]) := by
      unfold get_or_create_by_identifier
      rw [hfind]
    rw [h1]
    simp only
    rw [h2]
    exact ⟨rfl, rfl, rfl⟩

/-- Concrete instantiation of C9: registering `new@example.com` twice
resolves to the same single user. -/
theorem register_get_or_create_idempotent_witness :
    (get_or_create_by_identifier
        (get_or_create_by_identifier [] "new@example.com" 1).2
        "new@example.com" 2).1.1 =
      (get_or_create_by_identifier [] "new@example.com" 1).1.1 ∧
    (get_or_create_by_identifier
        (get_or_create_by_identifier [] "new@example.com" 1).2
        "new@example.com" 2).1.2 = false ∧
    (get_or_create_by_identifier
        (get_or_create_by_identifier [] "new@example.com" 1).2
        "new@example.com" 2).2 =
      (get_or_create_by_identifier [] "new@example.com" 1).2 :=
  register_get_or_create_idempotent [] "new@example.com" 1 2 (by decide)

/-! ## OTP request endpoint (`core/serializers.py`, `core/views.py`) -/

/-- The serializer context written by
`OTPRequestSerializer.validate_target`: only `channel` is ever set; the
`user_exists` / `user_does_not_exist` keys checked by the view are never
written, so `context.get(...)` yields a falsy value for them. -/
structure SerializerContext where
  channel : String
  user_exists : Bool
  user_does_not_exist : Bool
deriving DecidableEq, Repr

/-- An HTTP response as observed by the caller: status code and the
`detail`-style message body. -/
structure HttpResponse where
  status : Nat
  detail : String
deriving DecidableEq, Repr

/-- The normalized target as computed by
`OTPRequestSerializer.validate_target`: strip + lower, then phone
normalization when the value is not an email. -/
def serializerNormalize (value : String) : String :=
  let v := lowercase (stripWS value)
  if hasAtSign v then v else normalize_iran_phone v

/-- Function `OTPRequestSerializer.validate_target` of `core/serializers.py`:
strip/lower, email-versus-phone dispatch (the `EmailField` syntactic
check is not modelled; the claims involve well-formed emails), existence
check, and the two `serializers.ValidationError` exits.  A raised
`ValidationError` is the `Except.error` branch, which
`is_valid(raise_exception=True)` turns into an HTTP 400 whose body
carries the message. -/
def validate_target (users : List UserRec) (value purpose : String) :
    Except String (String × SerializerContext) :=
  let v := lowercase (stripWS value)
  let vc : String × String :=
    if hasAtSign v then (v, "email") else (normalize_iran_phone v, "sms")
  let ue := user_exists_for users vc.1
  if purpose = "register" && ue then
    Except.error "A user with this identifier already exists."
  else if purpose = "login" && !ue then
    Except.error "No user found with this identifier."
  else
    Except.ok (vc.1, ⟨vc.2, false, false⟩)

/-- Function `AuthViewSet.otp_request` of `core/views.py` (session writes aside):
serializer validation (a validation error becomes a 400 carrying the
message), the two generic-200 branches guarded by the never-set context
flags, then `send_otp` with 429 on cooldown and 200 on success. -/
def otp_request (users : List UserRec) (c : Cache) (gen : String)
    (target purpose : String) : HttpResponse × Cache :=
  match validate_target users target purpose with
  | Except.error msg => (⟨400, msg⟩, c)
  | Except.ok tc =>
    if tc.2.user_exists then
      (⟨200, "If an account with these details exists, a verification code will be sent."⟩, c)
    else if tc.2.user_does_not_exist then
      (⟨200, "If an account with these details exists, a verification code will be sent."⟩, c)
    else
      let r := send_otp c tc.1 gen purpose
      if !r.1 then
        (⟨429, "Please wait before requesting a new OTP."⟩, r.2)
      else
        (⟨200, "OTP sent successfully."⟩, r.2)

/-! ## C6: enumeration resistance of the request endpoint -/

/-- A user store holding one account, for the C6 counterexample. -/
def c6users : List UserRec :=
  [⟨1, some "existing@example.com", none, true, false⟩]

/-- Counterexample to claim C6: a register request for a target that already
resolves to a user is answered with HTTP 400 and the body `"A user with
this identifier already exists."`, while the normal case (no such user)
is answered with HTTP 200 — the response differs and reveals that an
account exists, contradicting the claimed generic 200. -/
theorem otp_request_reveals_account_existence :
    (otp_request c6users emptyCache "123456" "existing@example.com"
        "register").1 =
      ⟨400, "A user with this identifier already exists."⟩ ∧
    (otp_request [] emptyCache "123456" "existing@example.com"
        "register").1 =
      ⟨200, "OTP sent successfully."⟩ ∧
    (otp_request c6users emptyCache "123456" "existing@example.com"
        "register").1.status ≠
      (otp_request [] emptyCache "123456" "existing@example.com"
        "register").1.status := by
  decide

/-- Amended claim C6: for a register request whose target resolves to an
existing user, and for a login request whose target resolves to no user,
the serializer raises and the caller receives HTTP 400 with a message
that names whether the account exists; the store is untouched.  The
view's generic-200 enumeration-resistance branches are unreachable
because `validate_target` never sets the `user_exists` /
`user_does_not_exist` context flags it raises instead. -/
theorem otp_request_rejects_with_revealing_400 (users : List UserRec)
    (c : Cache) (gen value : String) :
    (user_exists_for users (serializerNormalize value) = true →
      otp_request users c gen value "register" =
        (⟨400, "A user with this identifier already exists."⟩, c)) ∧
    (user_exists_for users (serializerNormalize value) = false →
      otp_request users c gen value "login" =
        (⟨400, "No user found with this identifier."⟩, c)) := by
  have hnorm : serializerNormalize value =
      (if hasAtSign (lowercase (stripWS value)) then
        (lowercase (stripWS value), "email")
      else (normalize_iran_phone (lowercase (stripWS value)), "sms")).1 := by
    unfold serializerNormalize
    by_cases hat : hasAtSign (lowercase (stripWS value)) = true
    · rw [if_pos hat, if_pos hat]
    · rw [if_neg hat, if_neg hat]
  constructor
  · intro hex
    rw [hnorm] at hex
    unfold otp_request validate_target
    simp only [hex]
    rfl
  · intro hnx
    rw [hnorm] at hnx
    unfold otp_request validate_target
    simp only [hnx]
    rfl

/-- Concrete instantiation of the amended C6: both revealing 400
responses are observed on explicit inputs. -/
theorem otp_request_rejects_with_revealing_400_witness :
    otp_request c6users emptyCache "123456" "existing@example.com"
        "register" =
      (⟨400, "A user with this identifier already exists."⟩, emptyCache) ∧
    otp_request c6users emptyCache "123456" "absent@example.com" "login" =
      (⟨400, "No user found with this identifier."⟩, emptyCache) :=
  ⟨(otp_request_rejects_with_revealing_400 c6users emptyCache "123456"
      "existing@example.com").1 (by decide),
   (otp_request_rejects_with_revealing_400 c6users emptyCache "123456"
      "absent@example.com").2 (by decide)⟩

/-! ## Continuation-token signer (`django.core.signing.TimestampSigner`,
salt `"password-reset-salt"`, as used by `core/views.py`) -/

/-- A signed token `value:timestamp:signature` as produced by the
timestamp signer: the payload (here the user id carried as
`str(user_id)`), the issuance timestamp, and the MAC over both. -/
structure SignedToken where
  value : Nat
  timestamp : Nat
  sig : Nat
deriving DecidableEq, Repr

/-- Modelled from the spec: the signer implementation is Django's
`TimestampSigner`, not code under `src/`.  Its HMAC over
`(salt/secret, payload, timestamp)` is idealized as an injective pairing
of the secret with payload and timestamp — a perfect MAC: two different
signed messages never collide, and the signature cannot be recomputed
without the secret. -/
def signMac (secret value timestamp : Nat) : Nat :=
  Nat.pair secret (Nat.pair value timestamp)

/-- Modelled from the spec: `Mint(identity)` — `signer.sign(str(user_id))`
of `core/views.py` line 749 — signs the identity together with the
current timestamp. -/
def mint (secret identity now : Nat) : SignedToken :=
  ⟨identity, now, signMac secret identity now⟩

/-- Outcome of redeeming a token: the identity, or one of the two
internally distinct failures. -/
inductive RedeemResult where
  | redeemed (identity : Nat) : RedeemResult
  | expired : RedeemResult
  | invalid : RedeemResult
deriving DecidableEq, Repr

/-- Modelled from the spec: `Redeem(token, max_age)` —
`signer.unsign(reset_token, max_age=300)` of `core/views.py` line 848 —
first verifies the signature (`BadSignature` → `invalid`), then the age
(`SignatureExpired` → `expired`), exactly Django's order of checks. -/
def redeem (secret : Nat) (t : SignedToken) (now maxAge : Nat) :
    RedeemResult :=
  if t.sig ≠ signMac secret t.value t.timestamp then
    RedeemResult.invalid
  else if maxAge < now - t.timestamp then
    RedeemResult.expired
  else
    RedeemResult.redeemed t.value

/-- A token differing from `t` in exactly one of its three components —
the shallow counterpart of a token string with a mutated byte (a single
byte lies in exactly one of the payload, timestamp or signature
segments). -/
def mutatedInOneField (t' t : SignedToken) : Prop :=
  (t'.value ≠ t.value ∧ t'.timestamp = t.timestamp ∧ t'.sig = t.sig) ∨
  (t'.value = t.value ∧ t'.timestamp ≠ t.timestamp ∧ t'.sig = t.sig) ∨
  (t'.value = t.value ∧ t'.timestamp = t.timestamp ∧ t'.sig ≠ t.sig)

instance (t' t : SignedToken) : Decidable (mutatedInOneField t' t) := by
  unfold mutatedInOneField
  infer_instance

/-! ## C7: continuation-token round trip -/

/-- Claim C7: redeeming the token minted for an identity with
`max_age = 300` inside the window returns exactly that identity; after
the window it returns `expired`, never the identity; and redeeming any
token mutated in one component returns `invalid`. -/
theorem token_round_trip (secret identity t0 now : Nat) :
    (now - t0 ≤ 300 →
      redeem secret (mint secret identity t0) now 300 =
        RedeemResult.redeemed identity) ∧
    (300 < now - t0 →
      redeem secret (mint secret identity t0) now 300 =
        RedeemResult.expired) ∧
    (∀ t' : SignedToken, mutatedInOneField t' (mint secret identity t0) →
      redeem secret t' now 300 = RedeemResult.invalid) := by
  refine ⟨?_, ?_, ?_⟩
  · intro hin
    unfold redeem mint signMac
    have hage : ¬ 300 < now - t0 := by omega
    simp [hage]
  · intro hout
    unfold redeem mint signMac
    simp [hout]
  · intro t' hmut
    have hbad : t'.sig ≠ signMac secret t'.value t'.timestamp := by
      rcases hmut with ⟨hv, ht, hs⟩ | ⟨hv, ht, hs⟩ | ⟨hv, ht, hs⟩
      · rw [hs, ht]
        show signMac secret identity t0 ≠ signMac secret t'.value t0
        unfold signMac
        rw [Ne, Nat.pair_eq_pair, Nat.pair_eq_pair]
        intro hcontra
        exact hv (hcontra.2.1.symm)
      · rw [hs, hv]
        show signMac secret identity t0 ≠ signMac secret identity t'.timestamp
        unfold signMac
        rw [Ne, Nat.pair_eq_pair, Nat.pair_eq_pair]
        intro hcontra
        exact ht (hcontra.2.2.symm)
      · rw [hv, ht]
        exact hs
    unfold redeem
    rw [if_pos hbad]

/-- Concrete instantiation of C7: a token minted at time 100 for
identity 42 redeems to 42 at time 250, is expired at time 500, and any
single-component mutation is invalid. -/
theorem token_round_trip_witness :
    redeem 7 (mint 7 42 100) 250 300 = RedeemResult.redeemed 42 ∧
    redeem 7 (mint 7 42 100) 500 300 = RedeemResult.expired ∧
    redeem 7 ⟨43, 100, (mint 7 42 100).sig⟩ 250 300 =
      RedeemResult.invalid :=
  ⟨(token_round_trip 7 42 100 250).1 (by decide),
   (token_round_trip 7 42 100 500).2.1 (by decide),
   (token_round_trip 7 42 100 250).2.2 ⟨43, 100, (mint 7 42 100).sig⟩
     (by decide)⟩

/-! ## Password-reset completion (`core/views.py`) -/

/-- Function `AuthViewSet.password_reset_set` of `core/views.py`: serializer
validation (password/confirm mismatch → 400), token redemption with the
two distinct failure responses, user lookup by the redeemed id (404 when
gone), and the 200 success (the password-hash write itself has no
observable effect on the response). -/
def password_reset_set (users : List UserRec) (secret : Nat)
    (tok : SignedToken) (password password_confirm : String) (now : Nat) :
    HttpResponse :=
  if password ≠ password_confirm then
    ⟨400, "Passwords do not match."⟩
  else
    match redeem secret tok now 300 with
    | RedeemResult.expired => ⟨400, "Password reset link has expired."⟩
    | RedeemResult.invalid => ⟨400, "Invalid password reset link."⟩
    | RedeemResult.redeemed uid =>
      match users.find? (fun u => u.id == uid) with
      | none => ⟨404, "User not found."⟩
      | some _ => ⟨200, "Password has been reset successfully."⟩

/-! ## C8: generic token-failure reporting -/

/-- Counterexample to claim C8: on explicit inputs, the expired-token failure
and the tampered-token failure of the password-reset completion step
produce different response bodies (`"Password reset link has expired."`
versus `"Invalid password reset link."`): the response does distinguish
the two cases, contradicting the claimed indistinguishably generic body. -/
theorem password_reset_set_distinguishes_failures :
    password_reset_set [] 7 (mint 7 42 0) "newpass1" "newpass1" 1000 =
      ⟨400, "Password reset link has expired."⟩ ∧
    password_reset_set [] 7 ⟨42, 0, 0⟩ "newpass1" "newpass1" 1000 =
      ⟨400, "Invalid password reset link."⟩ ∧
    (password_reset_set [] 7 (mint 7 42 0) "newpass1" "newpass1" 1000).detail ≠
      (password_reset_set [] 7 ⟨42, 0, 0⟩ "newpass1" "newpass1" 1000).detail := by
  refine ⟨?_, ?_, ?_⟩ <;> decide

/-- Amended claim C8: both token failures of the password-reset completion
step share HTTP status 400 — the status code does not distinguish them —
but the response bodies are the two distinct fixed messages above, so
the expired-versus-tampered distinction is visible to the caller in the
body (and the code keeps no internal log of it). -/
theorem password_reset_set_status_400_distinct_bodies
    (users : List UserRec) (secret : Nat) (tok : SignedToken)
    (pw : String) (now : Nat) :
    (redeem secret tok now 300 = RedeemResult.expired →
      password_reset_set users secret tok pw pw now =
        ⟨400, "Password reset link has expired."⟩) ∧
    (redeem secret tok now 300 = RedeemResult.invalid →
      password_reset_set users secret tok pw pw now =
        ⟨400, "Invalid password reset link."⟩) := by
  have hpw : ¬ pw ≠ pw := fun h => h rfl
  constructor
  · intro hre
    unfold password_reset_set
    rw [if_neg hpw, hre]
  · intro hre
    unfold password_reset_set
    rw [if_neg hpw, hre]

/-- Concrete instantiation of the amended C8: both failure responses at
explicit inputs. -/
theorem password_reset_set_status_400_distinct_bodies_witness :
    password_reset_set [] 7 (mint 7 42 0) "newpass1" "newpass1" 1000 =
      ⟨400, "Password reset link has expired."⟩ ∧
    password_reset_set [] 7 ⟨42, 0, 1⟩ "newpass1" "newpass1" 1000 =
      ⟨400, "Invalid password reset link."⟩ :=
  ⟨(password_reset_set_status_400_distinct_bodies [] 7 (mint 7 42 0)
      "newpass1" 1000).1 (by decide),
   (password_reset_set_status_400_distinct_bodies [] 7 ⟨42, 0, 1⟩
      "newpass1" 1000).2 (by decide)⟩

end Plants
